import Mathlib

/-!
Shallow embedding of the TeleBuddy backend (src/schemas.py and src/main.py).

Record Definitions are pydantic models; construction from a mapping of
field values is embedded as a `construct` function on an Input structure
whose fields are `Option`-typed (`none` = field not supplied, or supplied
as None for Optional fields, which pydantic treats identically for these
models). Python floats are embedded as `Rat` (all constants occurring in
the development are exactly representable). The document store layer
(`database.py`) is not part of the sources; it is modelled from the spec
where indicated.
-/

namespace TeleBuddy

/-- Document field values as stored in the document store. `oid` is the
store-internal identifier type (ObjectId), distinct from `str`. -/
inductive Value where
  | null
  | str (s : String)
  | num (q : Rat)
  | intv (n : Int)
  | boolv (b : Bool)
  | oid (n : Nat)
  | strList (ss : List String)
deriving DecidableEq, Repr

/-- A stored document: an association list from field names to values. -/
abbrev Doc := List (String × Value)

/-- Lookup of a key in a document (first match). -/
def lookupKey : Doc → String → Option Value
  | [], _ => none
  | (k', v') :: rest, k => if k' = k then some v' else lookupKey rest k

/-- Assignment `d[k] = v` on a document: replaces the first binding of `k`,
or appends one if absent. -/
def setKey : Doc → String → Value → Doc
  | [], k, v => [(k, v)]
  | (k', v') :: rest, k, v =>
      if k' = k then (k, v) :: rest else (k', v') :: setKey rest k v

/-- Exact-match filter semantics: every filter binding must be present in
the document with the same value. -/
def matchesFilter (filt : Doc) (d : Doc) : Bool :=
  filt.all (fun kv => lookupKey d kv.1 == some kv.2)

/-- A database maps a collection name to its documents in insertion order. -/
abbrev DB := String → List Doc

/-- Display-string conversion of a store value, as Python `str(...)`. The
exact rendering of an ObjectId is immaterial to the claims; only that the
result is a string. -/
def pyStr : Value → String
  | .null => "None"
  | .str s => s
  | .num q => toString q
  | .intv n => toString n
  | .boolv b => toString b
  | .oid n => toString n
  | .strList ss => toString ss

/-- Display string for a fresh store-assigned identifier. -/
def oidString (n : Nat) : String := pyStr (.oid n)

/-- Validation failure raised by Record Definition construction. -/
inductive ValidationError where
  | missing (field : String)
  | badLiteral (field : String)
  | constraintViolated (field : String)
deriving DecidableEq, Repr

/-- True exactly when an `Except` computation failed. -/
def isFailure {ε α : Type} : Except ε α → Bool
  | .error _ => true
  | .ok _ => false

/-- Allowed values of the MediaItem `type` Literal. -/
def mediaTypes : List String := ["photo", "video", "document"]

/-- Allowed values of the Message `direction` Literal. -/
def directions : List String := ["inbound", "outbound"]

/-- Allowed values of the TeamMember `role` Literal. -/
def roles : List String := ["owner", "admin", "agent", "viewer"]

/-- Bot record (schemas.py class Bot). -/
structure Bot where
  name : String
  username : Option String
  token : Option String
  team_id : Option String
  welcome_message : Option String
  is_active : Bool
deriving DecidableEq, Repr

/-- Field mapping supplied to Bot construction. -/
structure BotInput where
  name : Option String
  username : Option String
  token : Option String
  team_id : Option String
  welcome_message : Option String
  is_active : Option Bool
deriving Repr

/-- Construction of a Bot from supplied fields: `name` is required,
`is_active` defaults to true, the rest default to None. -/
def Bot.construct (i : BotInput) : Except ValidationError Bot :=
  match i.name with
  | none => .error (.missing "name")
  | some n =>
      .ok ⟨n, i.username, i.token, i.team_id, i.welcome_message,
           i.is_active.getD true⟩

/-- Fan record (schemas.py class Fan). -/
structure Fan where
  bot_id : String
  tg_user_id : String
  username : Option String
  first_name : Option String
  last_name : Option String
  timezone : Option String
  total_spend : Rat
deriving DecidableEq, Repr

/-- Field mapping supplied to Fan construction. -/
structure FanInput where
  bot_id : Option String
  tg_user_id : Option String
  username : Option String
  first_name : Option String
  last_name : Option String
  timezone : Option String
  total_spend : Option Rat
deriving Repr

/-- Construction of a Fan: `bot_id` and `tg_user_id` are required,
`total_spend` defaults to 0. -/
def Fan.construct (i : FanInput) : Except ValidationError Fan :=
  match i.bot_id with
  | none => .error (.missing "bot_id")
  | some b =>
      match i.tg_user_id with
      | none => .error (.missing "tg_user_id")
      | some t =>
          .ok ⟨b, t, i.username, i.first_name, i.last_name, i.timezone,
               i.total_spend.getD 0⟩

/-- MediaItem record (schemas.py class MediaItem). -/
structure MediaItem where
  bot_id : String
  type : String
  caption : Option String
  price : Option Rat
  external_url : Option String
  telegram_file_id : Option String
  tags : List String
  thumbnail_url : Option String
deriving DecidableEq, Repr

/-- Field mapping supplied to MediaItem construction. -/
structure MediaItemInput where
  bot_id : Option String
  type : Option String
  caption : Option String
  price : Option Rat
  external_url : Option String
  telegram_file_id : Option String
  tags : Option (List String)
  thumbnail_url : Option String
deriving Repr

/-- Construction of a MediaItem: `bot_id` and `type` required, `type`
constrained to the Literal {photo, video, document}, `price` constrained
to be non-negative when supplied, `tags` defaults to the empty list. -/
def MediaItem.construct (i : MediaItemInput) : Except ValidationError MediaItem :=
  match i.bot_id with
  | none => .error (.missing "bot_id")
  | some b =>
      match i.type with
      | none => .error (.missing "type")
      | some t =>
          if mediaTypes.contains t then
            match i.price with
            | some p =>
                if p < 0 then .error (.constraintViolated "price")
                else
                  .ok ⟨b, t, i.caption, some p, i.external_url,
                       i.telegram_file_id, i.tags.getD [], i.thumbnail_url⟩
            | none =>
                .ok ⟨b, t, i.caption, none, i.external_url,
                     i.telegram_file_id, i.tags.getD [], i.thumbnail_url⟩
          else .error (.badLiteral "type")

/-- ScriptStep record (schemas.py class ScriptStep). -/
structure ScriptStep where
  media_item_id : Option String
  caption : Option String
  price : Option Rat
  delay_minutes : Int
deriving DecidableEq, Repr

/-- Field mapping supplied to ScriptStep construction. -/
structure ScriptStepInput where
  media_item_id : Option String
  caption : Option String
  price : Option Rat
  delay_minutes : Option Int
deriving Repr

/-- Construction of a ScriptStep: every field has a default;
`delay_minutes` defaults to 0 and must be non-negative when supplied. -/
def ScriptStep.construct (i : ScriptStepInput) : Except ValidationError ScriptStep :=
  match i.delay_minutes with
  | some d =>
      if d < 0 then .error (.constraintViolated "delay_minutes")
      else .ok ⟨i.media_item_id, i.caption, i.price, d⟩
  | none => .ok ⟨i.media_item_id, i.caption, i.price, 0⟩

/-- Script record (schemas.py class Script). -/
structure Script where
  bot_id : String
  name : String
  steps : List ScriptStep
deriving DecidableEq, Repr

/-- Field mapping supplied to Script construction. -/
structure ScriptInput where
  bot_id : Option String
  name : Option String
  steps : Option (List ScriptStep)
deriving Repr

/-- Construction of a Script: `bot_id` and `name` required, `steps`
defaults to the empty list. -/
def Script.construct (i : ScriptInput) : Except ValidationError Script :=
  match i.bot_id with
  | none => .error (.missing "bot_id")
  | some b =>
      match i.name with
      | none => .error (.missing "name")
      | some n => .ok ⟨b, n, i.steps.getD []⟩

/-- Conversation record (schemas.py class Conversation). -/
structure Conversation where
  bot_id : String
  fan_id : String
  last_message_preview : Option String
  last_message_at : Option String
  unread : Int
deriving DecidableEq, Repr

/-- Field mapping supplied to Conversation construction. -/
structure ConversationInput where
  bot_id : Option String
  fan_id : Option String
  last_message_preview : Option String
  last_message_at : Option String
  unread : Option Int
deriving Repr

/-- Construction of a Conversation: `bot_id` and `fan_id` required,
`unread` defaults to 0. -/
def Conversation.construct (i : ConversationInput) : Except ValidationError Conversation :=
  match i.bot_id with
  | none => .error (.missing "bot_id")
  | some b =>
      match i.fan_id with
      | none => .error (.missing "fan_id")
      | some f =>
          .ok ⟨b, f, i.last_message_preview, i.last_message_at,
               i.unread.getD 0⟩

/-- Message record (schemas.py class Message). -/
structure Message where
  conversation_id : String
  direction : String
  text : Option String
  media_item_id : Option String
  price : Option Rat
  paid : Bool
  telegram_message_id : Option Int
  telegram_file_id : Option String
deriving DecidableEq, Repr

/-- Field mapping supplied to Message construction. -/
structure MessageInput where
  conversation_id : Option String
  direction : Option String
  text : Option String
  media_item_id : Option String
  price : Option Rat
  paid : Option Bool
  telegram_message_id : Option Int
  telegram_file_id : Option String
deriving Repr

/-- Construction of a Message: `conversation_id` and `direction` required,
`direction` constrained to the Literal {inbound, outbound}, `paid`
defaults to false. -/
def Message.construct (i : MessageInput) : Except ValidationError Message :=
  match i.conversation_id with
  | none => .error (.missing "conversation_id")
  | some c =>
      match i.direction with
      | none => .error (.missing "direction")
      | some dir =>
          if directions.contains dir then
            .ok ⟨c, dir, i.text, i.media_item_id, i.price, i.paid.getD false,
                 i.telegram_message_id, i.telegram_file_id⟩
          else .error (.badLiteral "direction")

/-- Team record (schemas.py class Team). -/
structure Team where
  name : String
deriving DecidableEq, Repr

/-- Field mapping supplied to Team construction. -/
structure TeamInput where
  name : Option String
deriving Repr

/-- Construction of a Team: `name` is required. -/
def Team.construct (i : TeamInput) : Except ValidationError Team :=
  match i.name with
  | none => .error (.missing "name")
  | some n => .ok ⟨n⟩

/-- TeamMember record (schemas.py class TeamMember). -/
structure TeamMember where
  team_id : String
  user_id : String
  role : String
deriving DecidableEq, Repr

/-- Field mapping supplied to TeamMember construction. -/
structure TeamMemberInput where
  team_id : Option String
  user_id : Option String
  role : Option String
deriving Repr

/-- Construction of a TeamMember: `team_id` and `user_id` required, `role`
constrained to the Literal {owner, admin, agent, viewer} with default
"agent". -/
def TeamMember.construct (i : TeamMemberInput) : Except ValidationError TeamMember :=
  match i.team_id with
  | none => .error (.missing "team_id")
  | some t =>
      match i.user_id with
      | none => .error (.missing "user_id")
      | some u =>
          match i.role with
          | none => .ok ⟨t, u, "agent"⟩
          | some r =>
              if roles.contains r then .ok ⟨t, u, r⟩
              else .error (.badLiteral "role")

/-- AnalyticsDaily record (schemas.py class AnalyticsDaily). -/
structure AnalyticsDaily where
  bot_id : String
  date : String
  revenue : Rat
  paid_messages : Int
  unique_fans : Int
deriving DecidableEq, Repr

/-- Field mapping supplied to AnalyticsDaily construction. -/
structure AnalyticsDailyInput where
  bot_id : Option String
  date : Option String
  revenue : Option Rat
  paid_messages : Option Int
  unique_fans : Option Int
deriving Repr

/-- Construction of an AnalyticsDaily: `bot_id` and `date` required, the
numeric aggregates default to 0. -/
def AnalyticsDaily.construct (i : AnalyticsDailyInput) : Except ValidationError AnalyticsDaily :=
  match i.bot_id with
  | none => .error (.missing "bot_id")
  | some b =>
      match i.date with
      | none => .error (.missing "date")
      | some d =>
          .ok ⟨b, d, i.revenue.getD 0, i.paid_messages.getD 0,
               i.unique_fans.getD 0⟩

/-- Storage-layer failure raised by the Persistence Gateway. -/
inductive StorageErr where
  | unavailable
  | storageError
deriving DecidableEq, Repr

/-- Modelled from the spec: `database.py` (the Persistence Gateway holding
the process-wide connection `db` and defining `create_document`) is not
among the sources. Per the spec, `create` serializes the record, inserts
it into the collection named by the kind, and returns the store-assigned
identifier as a display string; it fails with StorageUnavailable when no
store connection exists and with StorageError when the underlying insert
fails. `conn` is the process-wide handle (`none` = never established),
`insertOk` models whether the underlying insert succeeds, and `newId` the
store-assigned identifier. -/
def create_document (conn : Option DB) (insertOk : Bool) (newId : Nat)
    (kind : String) (doc : Doc) : Except StorageErr (String × DB) :=
  match conn with
  | none => .error .unavailable
  | some db =>
      if insertOk then
        .ok (oidString newId,
             fun k => if k = kind then db k ++ [("_id", .oid newId) :: doc]
                      else db k)
      else .error .storageError

/-- Modelled from the spec: `database.py` also defines `get_documents`.
Per the spec, `query` returns up to `limit` documents matching an
exact-match filter in insertion order, returns an empty sequence when the
store is unavailable, and catches storage errors during reads, degrading
to empty results. `readFails` models an underlying read failure. -/
def get_documents (conn : Option DB) (readFails : Bool) (kind : String)
    (filt : Doc) (limit : Nat) : List Doc :=
  match conn with
  | none => []
  | some db =>
      if readFails then []
      else ((db kind).filter (matchesFilter filt)).take limit

/-- Serialization of a nullable string field (pydantic model_dump). -/
def optStrV : Option String → Value
  | none => .null
  | some s => .str s

/-- Serialization of a nullable numeric field. -/
def optRatV : Option Rat → Value
  | none => .null
  | some q => .num q

/-- Serialization of a nullable integer field. -/
def optIntV : Option Int → Value
  | none => .null
  | some n => .intv n

/-- Serialization of a Bot to a store document (model_dump). -/
def serializeBot (b : Bot) : Doc :=
  [("name", .str b.name), ("username", optStrV b.username),
   ("token", optStrV b.token), ("team_id", optStrV b.team_id),
   ("welcome_message", optStrV b.welcome_message),
   ("is_active", .boolv b.is_active)]

/-- Serialization of a Message to a store document (model_dump). -/
def serializeMessage (m : Message) : Doc :=
  [("conversation_id", .str m.conversation_id),
   ("direction", .str m.direction), ("text", optStrV m.text),
   ("media_item_id", optStrV m.media_item_id),
   ("price", optRatV m.price), ("paid", .boolv m.paid),
   ("telegram_message_id", optIntV m.telegram_message_id),
   ("telegram_file_id", optStrV m.telegram_file_id)]

/-- Per-item identifier conversion in the list endpoints of main.py:
`it["_id"] = str(it["_id"])`. Store documents always carry an `_id` (the
gateway adds one at insert); the `none` branch is unreachable for them
(in Python a missing key would raise before anything is returned). -/
def stringifyId (d : Doc) : Doc :=
  match lookupKey d "_id" with
  | some v => setKey d "_id" (.str (pyStr v))
  | none => d

/-- GET /api/media (main.py list_media): builds the filter with Python
truthiness (`{"bot_id": bot_id} if bot_id else \x7b\x7d`), so both `None` and
the empty string drop the filter; then queries and stringifies ids. -/
def list_media (conn : Option DB) (readFails : Bool)
    (bot_id : Option String) (limit : Nat) : List Doc :=
  let filt : Doc :=
    match bot_id with
    | none => []
    | some s => if s = "" then [] else [("bot_id", .str s)]
  (get_documents conn readFails "mediaitem" filt limit).map stringifyId

/-- GET /api/conversations (main.py list_conversations). -/
def list_conversations (conn : Option DB) (readFails : Bool)
    (bot_id : String) (limit : Nat) : List Doc :=
  (get_documents conn readFails "conversation" [("bot_id", .str bot_id)]
    limit).map stringifyId

/-- GET /api/messages (main.py list_messages). -/
def list_messages (conn : Option DB) (readFails : Bool)
    (conversation_id : String) (limit : Nat) : List Doc :=
  (get_documents conn readFails "message"
    [("conversation_id", .str conversation_id)] limit).map stringifyId

/-- GET /api/bots (main.py list_bots). -/
def list_bots (conn : Option DB) (readFails : Bool) (limit : Nat) : List Doc :=
  (get_documents conn readFails "bot" [] limit).map stringifyId

/-- Request body of POST /api/messages (main.py SendMessageRequest). -/
structure SendMessageRequest where
  conversation_id : String
  text : Option String
  media_item_id : Option String
  paid : Bool
  price : Option Rat
deriving Repr

/-- Response body of POST /api/messages. -/
structure SendMessageResponse where
  id : String
  telegram_message_id : Option Int
deriving DecidableEq, Repr

/-- Failure of a request handler: record validation or storage failure. -/
inductive AppError where
  | validation (e : ValidationError)
  | storage (e : StorageErr)
deriving DecidableEq, Repr

/-- Keyword arguments the send_message handler passes to the Message
constructor: direction "outbound" and the demo placeholder
telegram_message_id 123456. -/
def sendMessageInput (p : SendMessageRequest) : MessageInput :=
  ⟨some p.conversation_id, some "outbound", p.text, p.media_item_id,
   p.price, some p.paid, some 123456, none⟩

/-- POST /api/messages (main.py send_message): constructs the Message with
direction "outbound" and a fabricated telegram_message_id, stores it, and
returns the new id together with the placeholder telegram_message_id. -/
def send_message (conn : Option DB) (insertOk : Bool) (newId : Nat)
    (p : SendMessageRequest) : Except AppError (SendMessageResponse × DB) :=
  match Message.construct (sendMessageInput p) with
  | .error e => .error (.validation e)
  | .ok m =>
      match create_document conn insertOk newId "message"
          (serializeMessage m) with
      | .error e => .error (.storage e)
      | .ok (idStr, db2) => .ok (⟨idStr, m.telegram_message_id⟩, db2)

/-- Request body of POST /api/media (main.py CreateMediaRequest). -/
structure CreateMediaRequest where
  bot_id : String
  type : String
  caption : Option String
  price : Option Rat
  external_url : Option String
deriving Repr

/-- Keyword arguments POST /api/media passes to the MediaItem constructor
(`MediaItem(**payload.model_dump())`): the request fields, with the
remaining MediaItem fields unsupplied. -/
def createMediaInput (p : CreateMediaRequest) : MediaItemInput :=
  ⟨some p.bot_id, some p.type, p.caption, p.price, p.external_url,
   none, none, none⟩

/-- POST /api/media (main.py create_media): constructs the MediaItem from
the request and stores it. -/
def create_media (conn : Option DB) (insertOk : Bool) (newId : Nat)
    (p : CreateMediaRequest) : Except AppError (String × DB) :=
  match MediaItem.construct (createMediaInput p) with
  | .error e => .error (.validation e)
  | .ok item =>
      match create_document conn insertOk newId "mediaitem"
          [("bot_id", .str item.bot_id), ("type", .str item.type),
           ("caption", optStrV item.caption), ("price", optRatV item.price),
           ("external_url", optStrV item.external_url),
           ("telegram_file_id", optStrV item.telegram_file_id),
           ("tags", .strList item.tags),
           ("thumbnail_url", optStrV item.thumbnail_url)] with
      | .error e => .error (.storage e)
      | .ok (idStr, db2) => .ok (idStr, db2)

/-- Request body of POST /api/bots (main.py CreateBotRequest). -/
structure CreateBotRequest where
  name : String
  username : Option String
deriving Repr

/-- POST /api/bots (main.py create_bot) constructs
`Bot(name=payload.name, username=payload.username)`: only `name` and
`username` are passed; the other Bot fields are left to their defaults. -/
def create_bot_record (p : CreateBotRequest) : Except ValidationError Bot :=
  Bot.construct ⟨some p.name, p.username, none, none, none, none⟩

/-- POST /api/bots including storage of the serialized bot. -/
def create_bot (conn : Option DB) (insertOk : Bool) (newId : Nat)
    (p : CreateBotRequest) : Except AppError (String × DB) :=
  match create_bot_record p with
  | .error e => .error (.validation e)
  | .ok b =>
      match create_document conn insertOk newId "bot" (serializeBot b) with
      | .error e => .error (.storage e)
      | .ok (idStr, db2) => .ok (idStr, db2)

/-- Structural description of one declared field of a Record Definition,
as exposed by the schema export (name, declared type, default,
description, enumerated constraint). -/
structure FieldSchema where
  fname : String
  ftype : String
  required : Bool
  default : Option Value
  description : Option String
  enum : Option (List String)
deriving DecidableEq, Repr

/-- A Record Definition shape: its declared fields in order. -/
abbrev ModelSchema := List FieldSchema

/-- Shape of class Bot as declared in schemas.py. -/
def botSchema : ModelSchema :=
  [⟨"name", "string", true, none, some "Display name for this bot", none⟩,
   ⟨"username", "string", false, some .null,
    some "Telegram @username of the bot", none⟩,
   ⟨"token", "string", false, some .null,
    some "Telegram Bot API token (stored encrypted in production)", none⟩,
   ⟨"team_id", "string", false, some .null,
    some "Team/Workspace this bot belongs to", none⟩,
   ⟨"welcome_message", "string", false, some .null,
    some "Auto DM for join requests to private groups/channels", none⟩,
   ⟨"is_active", "boolean", false, some (.boolv true),
    some "Whether bot is currently active", none⟩]

/-- Shape of class Fan as declared in schemas.py. -/
def fanSchema : ModelSchema :=
  [⟨"bot_id", "string", true, none,
    some "Bot this fan is associated with", none⟩,
   ⟨"tg_user_id", "string", true, none, some "Telegram user id", none⟩,
   ⟨"username", "string", false, some .null, some "Telegram username", none⟩,
   ⟨"first_name", "string", false, some .null, some "First name", none⟩,
   ⟨"last_name", "string", false, some .null, some "Last name", none⟩,
   ⟨"timezone", "string", false, some .null,
    some "IANA timezone string if known", none⟩,
   ⟨"total_spend", "number", false, some (.num 0),
    some "Total Stars revenue associated with this fan", none⟩]

/-- Shape of class MediaItem as declared in schemas.py. -/
def mediaItemSchema : ModelSchema :=
  [⟨"bot_id", "string", true, none,
    some "Bot that owns this media item", none⟩,
   ⟨"type", "string", true, none, some "Telegram media type",
    some mediaTypes⟩,
   ⟨"caption", "string", false, some .null,
    some "Default caption to send with media", none⟩,
   ⟨"price", "number", false, some .null,
    some "Price in Stars or currency equivalent", none⟩,
   ⟨"external_url", "string", false, some .null,
    some "External URL to fetch the file from (for demos)", none⟩,
   ⟨"telegram_file_id", "string", false, some .null,
    some "Telegram file_id for instant reuse", none⟩,
   ⟨"tags", "array", false, some (.strList []),
    some "Tags for quick filtering", none⟩,
   ⟨"thumbnail_url", "string", false, some .null,
    some "Optional thumbnail url", none⟩]

/-- Shape of class ScriptStep as declared in schemas.py. -/
def scriptStepSchema : ModelSchema :=
  [⟨"media_item_id", "string", false, some .null,
    some "Reference to a media item", none⟩,
   ⟨"caption", "string", false, some .null,
    some "Override caption for this step", none⟩,
   ⟨"price", "number", false, some .null,
    some "Override price for this step", none⟩,
   ⟨"delay_minutes", "integer", false, some (.intv 0),
    some "Delay before sending this step in minutes", none⟩]

/-- Shape of class Script as declared in schemas.py. -/
def scriptSchema : ModelSchema :=
  [⟨"bot_id", "string", true, none, some "Owning bot", none⟩,
   ⟨"name", "string", true, none, some "Name of the sales script", none⟩,
   ⟨"steps", "array", false, some (.strList []),
    some "Sequence of steps", none⟩]

/-- Shape of class Conversation as declared in schemas.py. -/
def conversationSchema : ModelSchema :=
  [⟨"bot_id", "string", true, none, some "Owning bot", none⟩,
   ⟨"fan_id", "string", true, none, some "Fan in this conversation", none⟩,
   ⟨"last_message_preview", "string", false, some .null,
    some "Preview text for list view", none⟩,
   ⟨"last_message_at", "string", false, some .null,
    some "ISO time of last message", none⟩,
   ⟨"unread", "integer", false, some (.intv 0),
    some "Unread count for agent side", none⟩]

/-- Shape of class Message as declared in schemas.py. -/
def messageSchema : ModelSchema :=
  [⟨"conversation_id", "string", true, none,
    some "Conversation this message belongs to", none⟩,
   ⟨"direction", "string", true, none, some "Message direction",
    some directions⟩,
   ⟨"text", "string", false, some .null, some "Text body", none⟩,
   ⟨"media_item_id", "string", false, some .null,
    some "If message sent a media item", none⟩,
   ⟨"price", "number", false, some .null,
    some "Price charged for paid media", none⟩,
   ⟨"paid", "boolean", false, some (.boolv false),
    some "Whether this was paid content", none⟩,
   ⟨"telegram_message_id", "integer", false, some .null,
    some "Telegram message id if delivered", none⟩,
   ⟨"telegram_file_id", "string", false, some .null,
    some "file_id used for instant delivery if any", none⟩]

/-- Shape of class Team as declared in schemas.py. -/
def teamSchema : ModelSchema :=
  [⟨"name", "string", true, none, some "Team name", none⟩]

/-- Shape of class TeamMember as declared in schemas.py. -/
def teamMemberSchema : ModelSchema :=
  [⟨"team_id", "string", true, none, none, none⟩,
   ⟨"user_id", "string", true, none, none, none⟩,
   ⟨"role", "string", false, some (.str "agent"), none, some roles⟩]

/-- Shape of class AnalyticsDaily as declared in schemas.py. -/
def analyticsDailySchema : ModelSchema :=
  [⟨"bot_id", "string", true, none, none, none⟩,
   ⟨"date", "string", true, none, some "YYYY-MM-DD", none⟩,
   ⟨"revenue", "number", false, some (.num 0), none, none⟩,
   ⟨"paid_messages", "integer", false, some (.intv 0), none, none⟩,
   ⟨"unique_fans", "integer", false, some (.intv 0), none, none⟩]

/-- The ALL_MODELS table of schemas.py: the ten Record Definitions keyed
by class name, in declaration order. -/
def ALL_MODELS : List (String × ModelSchema) :=
  [("Bot", botSchema), ("Fan", fanSchema), ("MediaItem", mediaItemSchema),
   ("ScriptStep", scriptStepSchema), ("Script", scriptSchema),
   ("Conversation", conversationSchema), ("Message", messageSchema),
   ("Team", teamSchema), ("TeamMember", teamMemberSchema),
   ("AnalyticsDaily", analyticsDailySchema)]

/-- GET /schema (main.py get_schema): returns, for each entry of
ALL_MODELS, its structural description keyed by the model name. The
argument models the request; the result does not depend on it. -/
def get_schema (_u : Unit) : List (String × ModelSchema) :=
  ALL_MODELS.map (fun nm => (nm.1, nm.2))

/-- Concrete one-document store used to exercise the listing endpoints. -/
def db0 : DB :=
  fun k => if k = "mediaitem"
           then [[("_id", Value.oid 7), ("bot_id", Value.str "b1")]]
           else []

/-- Lookup after assignment returns the assigned value. -/
theorem lookupKey_setKey (d : Doc) (k : String) (v : Value) :
    lookupKey (setKey d k v) k = some v := by
  induction d with
  | nil => simp [setKey, lookupKey]
  | cons kv rest ih =>
      obtain ⟨k', v'⟩ := kv
      by_cases h : k' = k
      · simp [setKey, lookupKey, h]
      · simp [setKey, lookupKey, h, ih]

/-- Every document a query returns comes from the queried collection of an
established connection. -/
theorem mem_get_documents {conn : Option DB} {readFails : Bool}
    {kind : String} {filt : Doc} {limit : Nat} {d : Doc}
    (hd : d ∈ get_documents conn readFails kind filt limit) :
    ∃ db, conn = some db ∧ d ∈ db kind := by
  cases conn with
  | none => simp [get_documents] at hd
  | some db =>
      refine ⟨db, rfl, ?_⟩
      by_cases hrf : readFails
      · simp [get_documents, hrf] at hd
      · simp [get_documents, hrf] at hd
        exact (List.mem_filter.mp (List.mem_of_mem_take hd)).1

/-- Identifier conversion yields a string `_id` whenever one is present. -/
theorem stringifyId_id_str {d : Doc} (h : (lookupKey d "_id").isSome = true) :
    ∃ s, lookupKey (stringifyId d) "_id" = some (.str s) := by
  cases hv : lookupKey d "_id" with
  | none => rw [hv] at h; simp at h
  | some v => exact ⟨pyStr v, by simp [stringifyId, hv, lookupKey_setKey]⟩

/-- Documents produced by a query followed by identifier conversion carry
a string `_id`, provided the collection's documents carry an `_id`. -/
theorem listOutput_id_str {conn : Option DB} {readFails : Bool}
    {kind : String} {filt : Doc} {limit : Nat}
    (hids : ∀ db, conn = some db →
      ∀ d ∈ db kind, (lookupKey d "_id").isSome = true) :
    ∀ d ∈ (get_documents conn readFails kind filt limit).map stringifyId,
      ∃ s, lookupKey d "_id" = some (.str s) := by
  intro d hd
  obtain ⟨d0, hd0, rfl⟩ := List.mem_map.mp hd
  obtain ⟨db, hconn, hmem⟩ := mem_get_documents hd0
  exact stringifyId_id_str (hids db hconn d0 hmem)

/-- C1: MediaItem construction fails with a ValidationError when `type`
lies outside {photo, video, document}, fails when `price` is negative,
and succeeds with price 0 recorded when the required fields are present
with a valid `type`. -/
theorem C1_mediaItem_validation :
    (∀ (i : MediaItemInput) (t : String), i.type = some t →
      t ∉ mediaTypes →
      isFailure (MediaItem.construct i) = true) ∧
    (∀ (i : MediaItemInput) (p : Rat), i.price = some p → p < 0 →
      isFailure (MediaItem.construct i) = true) ∧
    (∀ (i : MediaItemInput) (b t : String), i.bot_id = some b →
      i.type = some t → t ∈ mediaTypes → i.price = some 0 →
      ∃ m, MediaItem.construct i = .ok m ∧ m.price = some 0) := by
  refine ⟨?_, ?_, ?_⟩
  · intro i t ht hcon
    cases hb : i.bot_id with
    | none => simp [MediaItem.construct, hb, isFailure]
    | some b => simp [MediaItem.construct, hb, ht, hcon, isFailure]
  · intro i p hp hneg
    cases hb : i.bot_id with
    | none => simp [MediaItem.construct, hb, isFailure]
    | some b =>
        cases ht : i.type with
        | none => simp [MediaItem.construct, hb, ht, isFailure]
        | some t =>
            by_cases hc : t ∈ mediaTypes
            · simp [MediaItem.construct, hb, ht, hc, hp, hneg, isFailure]
            · simp [MediaItem.construct, hb, ht, hc, isFailure]
  · intro i b t hb ht hc hp
    refine ⟨⟨b, t, i.caption, some 0, i.external_url, i.telegram_file_id,
             i.tags.getD [], i.thumbnail_url⟩, ?_, rfl⟩
    simp [MediaItem.construct, hb, ht, hc, hp]

/-- Witness for C1: type "audio" is rejected, price -1 is rejected, and
price 0 with bot_id "bot1" and type "photo" is accepted. -/
theorem C1_witness :
    isFailure (MediaItem.construct
      ⟨some "bot1", some "audio", none, none, none, none, none, none⟩) = true ∧
    isFailure (MediaItem.construct
      ⟨some "bot1", some "photo", none, some (-1), none, none, none, none⟩) = true ∧
    ∃ m, MediaItem.construct
      ⟨some "bot1", some "photo", none, some 0, none, none, none, none⟩ = .ok m ∧
      m.price = some 0 :=
  ⟨C1_mediaItem_validation.1 _ "audio" rfl (by decide),
   C1_mediaItem_validation.2.1 _ (-1) rfl (by norm_num),
   C1_mediaItem_validation.2.2 _ "bot1" "photo" rfl rfl (by decide) rfl⟩

/-- C5: Message construction fails with a ValidationError when `direction`
lies outside {inbound, outbound}, and succeeds with `paid` defaulted to
false when `direction` is "inbound" and `paid` is unsupplied. -/
theorem C5_message_direction :
    (∀ (i : MessageInput) (dir : String), i.direction = some dir →
      dir ∉ directions →
      isFailure (Message.construct i) = true) ∧
    (∀ (i : MessageInput) (c : String), i.conversation_id = some c →
      i.direction = some "inbound" → i.paid = none →
      ∃ m, Message.construct i = .ok m ∧ m.paid = false) := by
  constructor
  · intro i dir hdir hcon
    cases hc : i.conversation_id with
    | none => simp [Message.construct, hc, isFailure]
    | some c => simp [Message.construct, hc, hdir, hcon, isFailure]
  · intro i c hc hdir hpaid
    refine ⟨⟨c, "inbound", i.text, i.media_item_id, i.price, false,
             i.telegram_message_id, i.telegram_file_id⟩, ?_, rfl⟩
    simp [Message.construct, hc, hdir, hpaid, directions]

/-- Witness for C5: direction "sideways" is rejected; direction "inbound"
with `paid` unsupplied is accepted with paid = false. -/
theorem C5_witness :
    isFailure (Message.construct
      ⟨some "c1", some "sideways", none, none, none, none, none, none⟩) = true ∧
    ∃ m, Message.construct
      ⟨some "c1", some "inbound", none, none, none, none, none, none⟩ = .ok m ∧
      m.paid = false :=
  ⟨C5_message_direction.1 _ "sideways" rfl (by decide),
   C5_message_direction.2 _ "c1" rfl rfl rfl⟩

/-- C7: for every record kind, construction with a required field omitted
fails with a ValidationError; one conjunct per required field of each of
the nine kinds with required fields (ScriptStep has none, so the claim is
vacuous for it). -/
theorem C7_required_fields :
    (∀ i : BotInput, i.name = none → isFailure (Bot.construct i) = true) ∧
    (∀ i : FanInput, i.bot_id = none → isFailure (Fan.construct i) = true) ∧
    (∀ i : FanInput, i.tg_user_id = none →
      isFailure (Fan.construct i) = true) ∧
    (∀ i : MediaItemInput, i.bot_id = none →
      isFailure (MediaItem.construct i) = true) ∧
    (∀ i : MediaItemInput, i.type = none →
      isFailure (MediaItem.construct i) = true) ∧
    (∀ i : ScriptInput, i.bot_id = none →
      isFailure (Script.construct i) = true) ∧
    (∀ i : ScriptInput, i.name = none →
      isFailure (Script.construct i) = true) ∧
    (∀ i : ConversationInput, i.bot_id = none →
      isFailure (Conversation.construct i) = true) ∧
    (∀ i : ConversationInput, i.fan_id = none →
      isFailure (Conversation.construct i) = true) ∧
    (∀ i : MessageInput, i.conversation_id = none →
      isFailure (Message.construct i) = true) ∧
    (∀ i : MessageInput, i.direction = none →
      isFailure (Message.construct i) = true) ∧
    (∀ i : TeamInput, i.name = none → isFailure (Team.construct i) = true) ∧
    (∀ i : TeamMemberInput, i.team_id = none →
      isFailure (TeamMember.construct i) = true) ∧
    (∀ i : TeamMemberInput, i.user_id = none →
      isFailure (TeamMember.construct i) = true) ∧
    (∀ i : AnalyticsDailyInput, i.bot_id = none →
      isFailure (AnalyticsDaily.construct i) = true) ∧
    (∀ i : AnalyticsDailyInput, i.date = none →
      isFailure (AnalyticsDaily.construct i) = true) := by
  refine ⟨?_, ?_, ?_, ?_, ?_, ?_, ?_, ?_, ?_, ?_, ?_, ?_, ?_, ?_, ?_, ?_⟩
  · intro i h; simp [Bot.construct, h, isFailure]
  · intro i h; simp [Fan.construct, h, isFailure]
  · intro i h
    cases hb : i.bot_id with
    | none => simp [Fan.construct, hb, isFailure]
    | some b => simp [Fan.construct, hb, h, isFailure]
  · intro i h; simp [MediaItem.construct, h, isFailure]
  · intro i h
    cases hb : i.bot_id with
    | none => simp [MediaItem.construct, hb, isFailure]
    | some b => simp [MediaItem.construct, hb, h, isFailure]
  · intro i h; simp [Script.construct, h, isFailure]
  · intro i h
    cases hb : i.bot_id with
    | none => simp [Script.construct, hb, isFailure]
    | some b => simp [Script.construct, hb, h, isFailure]
  · intro i h; simp [Conversation.construct, h, isFailure]
  · intro i h
    cases hb : i.bot_id with
    | none => simp [Conversation.construct, hb, isFailure]
    | some b => simp [Conversation.construct, hb, h, isFailure]
  · intro i h; simp [Message.construct, h, isFailure]
  · intro i h
    cases hc : i.conversation_id with
    | none => simp [Message.construct, hc, isFailure]
    | some c => simp [Message.construct, hc, h, isFailure]
  · intro i h; simp [Team.construct, h, isFailure]
  · intro i h; simp [TeamMember.construct, h, isFailure]
  · intro i h
    cases ht : i.team_id with
    | none => simp [TeamMember.construct, ht, isFailure]
    | some t => simp [TeamMember.construct, ht, h, isFailure]
  · intro i h; simp [AnalyticsDaily.construct, h, isFailure]
  · intro i h
    cases hb : i.bot_id with
    | none => simp [AnalyticsDaily.construct, hb, isFailure]
    | some b => simp [AnalyticsDaily.construct, hb, h, isFailure]

/-- Witness for C7: a Bot without `name` and a Team without `name` are
both rejected. -/
theorem C7_witness :
    isFailure (Bot.construct ⟨none, none, none, none, none, none⟩) = true ∧
    isFailure (Team.construct ⟨none⟩) = true :=
  ⟨C7_required_fields.1 _ rfl,
   C7_required_fields.2.2.2.2.2.2.2.2.2.2.2.1 _ rfl⟩

/-- C10: every bot created through POST /api/bots carries only the
request's name and username; is_active is true and token, team_id and
welcome_message are None, both on the record and in its stored
serialization. -/
theorem C10_create_bot_defaults :
    ∀ p : CreateBotRequest, ∃ b : Bot,
      create_bot_record p = .ok b ∧
      b.name = p.name ∧ b.username = p.username ∧
      b.is_active = true ∧ b.token = none ∧ b.team_id = none ∧
      b.welcome_message = none ∧
      lookupKey (serializeBot b) "is_active" = some (.boolv true) ∧
      lookupKey (serializeBot b) "token" = some .null ∧
      lookupKey (serializeBot b) "team_id" = some .null ∧
      lookupKey (serializeBot b) "welcome_message" = some .null := by
  intro p
  refine ⟨⟨p.name, p.username, none, none, none, true⟩,
          rfl, rfl, rfl, rfl, rfl, rfl, rfl, ?_, ?_, ?_, ?_⟩ <;>
    simp [serializeBot, lookupKey, optStrV]

/-- C2: every send-message request stores a message whose direction is
"outbound" and whose telegram_message_id is the non-null placeholder
123456, appended to the message collection, and the same placeholder is
returned to the caller together with the new identifier. -/
theorem C2_send_message_outbound :
    ∀ (db : DB) (newId : Nat) (p : SendMessageRequest),
      ∃ (m : Message) (db2 : DB),
        Message.construct (sendMessageInput p) = .ok m ∧
        m.direction = "outbound" ∧
        m.telegram_message_id = some 123456 ∧
        lookupKey (serializeMessage m) "direction" =
          some (.str "outbound") ∧
        lookupKey (serializeMessage m) "telegram_message_id" =
          some (.intv 123456) ∧
        send_message (some db) true newId p =
          .ok (⟨oidString newId, some 123456⟩, db2) ∧
        db2 "message" =
          db "message" ++ [("_id", .oid newId) :: serializeMessage m] := by
  intro db newId p
  refine ⟨⟨p.conversation_id, "outbound", p.text, p.media_item_id, p.price,
           p.paid, some 123456, none⟩,
          fun k => if k = "message"
                   then db k ++ [("_id", .oid newId) ::
                     serializeMessage
                       ⟨p.conversation_id, "outbound", p.text,
                        p.media_item_id, p.price, p.paid, some 123456, none⟩]
                   else db k,
          ?_, rfl, rfl, ?_, ?_, ?_, ?_⟩
  · simp [Message.construct, sendMessageInput, directions]
  · simp [serializeMessage, lookupKey]
  · simp [serializeMessage, lookupKey, optIntV]
  · simp [send_message, create_document, Message.construct,
          sendMessageInput, directions]
  · simp

/-- C3: a query matching zero documents returns the empty sequence for
every store state (connection unset, read failure, or simply no matching
document); the read path is total, so no error is ever raised. -/
theorem C3_query_no_match_empty :
    ∀ (conn : Option DB) (readFails : Bool) (kind : String) (filt : Doc)
      (limit : Nat),
      (∀ db : DB, conn = some db →
        ∀ d ∈ db kind, matchesFilter filt d = false) →
      get_documents conn readFails kind filt limit = [] := by
  intro conn rf kind filt limit h
  cases conn with
  | none => simp [get_documents]
  | some db =>
      by_cases hrf : rf
      · simp [get_documents, hrf]
      · have hfil : (db kind).filter (matchesFilter filt) = [] :=
          List.filter_eq_nil_iff.mpr (by intro a ha; simp [h db rfl a ha])
        simp [get_documents, hrf, hfil]

/-- Witness for C3 at an established connection whose collections are all
empty. -/
theorem C3_witness :
    get_documents (some (fun _ => [])) false "mediaitem" [] 50 = [] :=
  C3_query_no_match_empty _ _ _ _ _ (by
    intro db hdb d hd
    cases hdb
    simp at hd)

/-- C4: a create with the process-wide connection unset fails with
StorageUnavailable, and a create whose underlying insert fails reports
StorageError; the result type admits no other failure. -/
theorem C4_create_failure_modes :
    ∀ (conn : Option DB) (insertOk : Bool) (newId : Nat) (kind : String)
      (doc : Doc),
      (conn = none →
        create_document conn insertOk newId kind doc =
          .error .unavailable) ∧
      (∀ db : DB, conn = some db → insertOk = false →
        create_document conn insertOk newId kind doc =
          .error .storageError) := by
  intro conn insertOk newId kind doc
  constructor
  · intro h; subst h; rfl
  · intro db h hins; subst h; subst hins; rfl

/-- Witness for C4 with the connection unset, and with a connection whose
insert fails. -/
theorem C4_witness :
    create_document none true 1 "mediaitem" [] = .error .unavailable ∧
    create_document (some (fun _ => [])) false 1 "mediaitem" [] =
      .error .storageError :=
  ⟨(C4_create_failure_modes none true 1 "mediaitem" []).1 rfl,
   (C4_create_failure_modes (some (fun _ => [])) false 1 "mediaitem" []).2
     _ rfl rfl⟩

/-- C6: every document returned by the four listing endpoints surfaces its
store-assigned `_id` as a string value, for every store whose documents
carry an `_id` (the gateway assigns one at every insert). -/
theorem C6_listing_id_string :
    ∀ (conn : Option DB) (readFails : Bool) (limit : Nat),
      (∀ (bid : Option String),
        (∀ db, conn = some db →
          ∀ d ∈ db "mediaitem", (lookupKey d "_id").isSome = true) →
        ∀ d ∈ list_media conn readFails bid limit,
          ∃ s, lookupKey d "_id" = some (.str s)) ∧
      (∀ (bid : String),
        (∀ db, conn = some db →
          ∀ d ∈ db "conversation", (lookupKey d "_id").isSome = true) →
        ∀ d ∈ list_conversations conn readFails bid limit,
          ∃ s, lookupKey d "_id" = some (.str s)) ∧
      (∀ (cid : String),
        (∀ db, conn = some db →
          ∀ d ∈ db "message", (lookupKey d "_id").isSome = true) →
        ∀ d ∈ list_messages conn readFails cid limit,
          ∃ s, lookupKey d "_id" = some (.str s)) ∧
      ((∀ db, conn = some db →
          ∀ d ∈ db "bot", (lookupKey d "_id").isSome = true) →
        ∀ d ∈ list_bots conn readFails limit,
          ∃ s, lookupKey d "_id" = some (.str s)) := by
  intro conn rf limit
  refine ⟨?_, ?_, ?_, ?_⟩
  · intro bid h d hd
    exact listOutput_id_str h d hd
  · intro bid h d hd
    exact listOutput_id_str h d hd
  · intro cid h d hd
    exact listOutput_id_str h d hd
  · intro h d hd
    exact listOutput_id_str h d hd

/-- Witness for C6: the single document listed from the one-document
store `db0` carries a string `_id`. -/
theorem C6_witness :
    ∃ s, lookupKey
      (stringifyId [("_id", Value.oid 7), ("bot_id", Value.str "b1")])
      "_id" = some (Value.str s) :=
  (C6_listing_id_string (some db0) false 50).1 none
    (by intro db hdb d hd
        cases hdb
        simp [db0] at hd
        subst hd
        rfl)
    (stringifyId [("_id", Value.oid 7), ("bot_id", Value.str "b1")])
    (by simp [list_media, get_documents, db0, matchesFilter])

/-- C8: the schema export is a constant function of the static Record
Definitions, keyed by the ten definition names, and carries their
structural descriptions, including the enumerated constraints of the
MediaItem `type` and Message `direction` fields. -/
theorem C8_schema_export :
    (∀ u v : Unit, get_schema u = get_schema v) ∧
    (get_schema ()).map Prod.fst =
      ["Bot", "Fan", "MediaItem", "ScriptStep", "Script", "Conversation",
       "Message", "Team", "TeamMember", "AnalyticsDaily"] ∧
    (get_schema ()).length = 10 ∧
    (get_schema ()).lookup "MediaItem" = some mediaItemSchema ∧
    (get_schema ()).lookup "Message" = some messageSchema ∧
    mediaItemSchema.map FieldSchema.fname =
      ["bot_id", "type", "caption", "price", "external_url",
       "telegram_file_id", "tags", "thumbnail_url"] ∧
    messageSchema.map FieldSchema.fname =
      ["conversation_id", "direction", "text", "media_item_id", "price",
       "paid", "telegram_message_id", "telegram_file_id"] ∧
    botSchema.map FieldSchema.fname =
      ["name", "username", "token", "team_id", "welcome_message",
       "is_active"] ∧
    (mediaItemSchema.filter (fun f => f.fname == "type")).map
      FieldSchema.enum = [some mediaTypes] ∧
    (messageSchema.filter (fun f => f.fname == "direction")).map
      FieldSchema.enum = [some directions] := by
  refine ⟨fun u v => rfl, ?_, ?_, ?_, ?_, ?_, ?_, ?_, ?_, ?_⟩ <;> rfl

/-- C9: in the media listing, a bot_id equal to the empty string is
treated as absent: the filter is dropped and the media of every bot is
returned, up to the limit. -/
theorem C9_empty_botid_drops_filter :
    (∀ (conn : Option DB) (readFails : Bool) (limit : Nat),
      list_media conn readFails (some "") limit =
        list_media conn readFails none limit) ∧
    (∀ (db : DB) (limit : Nat),
      list_media (some db) false (some "") limit =
        ((db "mediaitem").take limit).map stringifyId) := by
  constructor
  · intro conn rf limit; rfl
  · intro db limit
    have hall : (db "mediaitem").filter (matchesFilter []) =
        db "mediaitem" :=
      List.filter_eq_self.mpr (by intro a ha; rfl)
    simp [list_media, get_documents, hall]

end TeleBuddy
